import Mathlib

/-!
Shallow embedding of the Resumind resume-analyzer core: the Puter facade
(`app/lib/puter.ts`), the PDF-to-image converter (`app/lib/pdf2img.ts`),
the upload/analysis pipeline (`handleAnalyze` in `app/routes/upload.tsx`)
and the stored-record format shared by `upload.tsx`, `home.tsx` and
`resume.tsx`, together with theorems about their behaviour.

Modelling conventions:
* JavaScript strings are `List Char` (abbreviated `JStr`).
* `undefined`/`null` are `Option.none`; a rejected promise is
  `Except.error` carrying the error message.
* The external Puter backend is an oracle record (`Backend`) whose fields
  give the outcome of each remote call; the facade code under test is
  translated around it.
* Side effects of the pipeline are recorded in an explicit effect trace.
-/

/-- A JavaScript string, modelled as its list of characters. -/
abbrev JStr := List Char

/-- Characters of a string literal. -/
def chars (s : String) : JStr := s.data

/-- JSON values as produced by `JSON.parse` (numbers restricted to the
integers, which covers every score the specification talks about). -/
inductive Json where
  | null
  | bool (b : Bool)
  | num (n : Int)
  | str (s : JStr)
  | arr (items : List Json)
  | obj (fields : List (JStr × Json))

/-- First binding of a key in a JavaScript-object field list. -/
def findField : List (JStr × Json) → JStr → Option Json
  | [], _ => none
  | (k, v) :: rest, key => if k = key then some v else findField rest key

/-- Property access `j[key]` on a parsed JSON object. -/
def Json.getField : Json → JStr → Option Json
  | .obj fields, key => findField fields key
  | _, _ => none

/-- The `feedback` field of a stored record: the empty string before the
AI answer is parsed (`feedback: ""` in `handleAnalyze` step 4), the parsed
JSON payload afterwards (step 6). -/
inductive FeedbackVal where
  | empty
  | payload (j : Json)

/-- The durable analysis record (`Resume` in the TypeScript sources): the
object literal `data` built in `handleAnalyze` step 4 and stored under
`resume:<uuid>`. -/
structure Resume where
  id : JStr
  resumePath : JStr
  imagePath : JStr
  companyName : JStr
  jobTitle : JStr
  jobDescription : JStr
  feedback : FeedbackVal

/-- Storage form of the `feedback` field: `""` or the payload object. -/
def serializeFeedbackVal : FeedbackVal → Json
  | .empty => .str []
  | .payload j => j

/-- `JSON.stringify(data)` at the level of the JSON tree: the serialized
storage form of a record, with the fixed field names of the wire format. -/
def serializeRecord (r : Resume) : Json :=
  .obj [ (chars "id", .str r.id),
         (chars "resumePath", .str r.resumePath),
         (chars "imagePath", .str r.imagePath),
         (chars "companyName", .str r.companyName),
         (chars "jobTitle", .str r.jobTitle),
         (chars "jobDescription", .str r.jobDescription),
         (chars "feedback", serializeFeedbackVal r.feedback) ]

/-- String extraction from a JSON value. -/
def asStr : Json → Option JStr
  | .str s => some s
  | _ => none

/-- Reading back the `feedback` field the way the consumers branch on it
(`resume.tsx` / `ResumeCard`): the empty string means "no feedback yet",
an object is the payload. -/
def parseFeedbackVal : Json → Option FeedbackVal
  | .str s => if s.isEmpty then some .empty else none
  | .obj fields => some (.payload (.obj fields))
  | _ => none

/-- Hydrating a stored record from its parsed JSON value, reading the
seven fields of the wire format exactly as the readers (`home.tsx`
`loadResumes`, `resume.tsx` `loadResume`) consume them. -/
def parseRecord (j : Json) : Option Resume := do
  let id ← (j.getField (chars "id")).bind asStr
  let resumePath ← (j.getField (chars "resumePath")).bind asStr
  let imagePath ← (j.getField (chars "imagePath")).bind asStr
  let companyName ← (j.getField (chars "companyName")).bind asStr
  let jobTitle ← (j.getField (chars "jobTitle")).bind asStr
  let jobDescription ← (j.getField (chars "jobDescription")).bind asStr
  let fb ← (j.getField (chars "feedback")).bind parseFeedbackVal
  pure ⟨id, resumePath, imagePath, companyName, jobTitle, jobDescription, fb⟩

/-! ## Document converter (`app/lib/pdf2img.ts`) -/

/-- An opaque browser `Blob`, identified by its backing data. -/
structure Blob where
  bid : JStr
deriving DecidableEq

/-- `URL.createObjectURL(blob)`: a fresh `blob:` URL for the blob. -/
def createObjectURL (b : Blob) : JStr := chars "blob:" ++ b.bid

/-- Whether `file.name` matches the regex `/\.pdf$/i` of
`convertPdfToImage`: a trailing `.pdf`, case-insensitively. -/
def endsPdfCI (name : JStr) : Bool :=
  match name.reverse with
  | cf :: cd :: cp :: cdot :: _ =>
      (cdot == '.') && ((cp == 'p') || (cp == 'P')) &&
        ((cd == 'd') || (cd == 'D')) && ((cf == 'f') || (cf == 'F'))
  | _ => false

/-- `file.name.replace(/\.pdf$/i, "")`: drop one trailing `.pdf`
extension (any casing) when present, otherwise keep the name. -/
def stripPdfExt (name : JStr) : JStr :=
  if endsPdfCI name then (name.reverse.drop 4).reverse else name

/-- Name of the generated preview, `` `${originalName}.png` `` in the
source. -/
def outputName (name : JStr) : JStr := stripPdfExt name ++ chars ".png"

/-- The uploaded input file, as far as the converter inspects it. -/
structure InputFile where
  name : JStr
deriving DecidableEq

/-- The generated PNG `File` (`new File([blob], name)`). -/
structure GenFile where
  name : JStr
  content : Blob
deriving DecidableEq

/-- Result object of `convertPdfToImage`. -/
structure PdfConversionResult where
  imageUrl : JStr
  file : Option GenFile
  error : Option JStr

/-- Outcomes of the external steps of one conversion: the try-block
(PDF.js load, `getDocument`, `getPage(1)`, `render`) and the
`canvas.toBlob` callback value. -/
structure ConvertEnv where
  renderResult : Except JStr Unit
  toBlobResult : Option Blob

/-- `convertPdfToImage`: render page one, then wrap the PNG blob; any
exception in the try-block yields the error result, a `null` blob yields
the blob-encoding error result. -/
def convertPdfToImage (f : InputFile) (env : ConvertEnv) : PdfConversionResult :=
  match env.renderResult with
  | .error err =>
      { imageUrl := [], file := none,
        error := some (chars "Failed to convert PDF: " ++ err) }
  | .ok _ =>
      match env.toBlobResult with
      | none =>
          { imageUrl := [], file := none,
            error := some (chars "Failed to create image blob") }
      | some blob =>
          { imageUrl := createObjectURL blob,
            file := some ⟨outputName f.name, blob⟩,
            error := none }

/-! ## Lazy PDF.js loader (`loadPdfJs` and its module-level state) -/

/-- The module-level state of `pdf2img.ts`: the cached library instance
(`pdfjsLib`), the loading flag, the in-flight promise (never reset once
set), and a ghost counter of how many dynamic imports were started. -/
structure LoaderState where
  pdfjsLib : Option Nat
  isLoading : Bool
  loadPromise : Option Nat
  loadsStarted : Nat
deriving DecidableEq

/-- Initial module state: nothing cached, nothing in flight. -/
def initLoader : LoaderState := ⟨none, false, none, 0⟩

/-- What one call of `loadPdfJs` hands back: the cached instance or a
promise (identified by number). -/
inductive LoadResult where
  | cached (lib : Nat)
  | promise (pid : Nat)
deriving DecidableEq

/-- One synchronous execution of `loadPdfJs` up to its `return`: reuse the
cache, else reuse the in-flight promise, else start the dynamic import. -/
def loadPdfJsCall (s : LoaderState) : LoaderState × LoadResult :=
  match s.pdfjsLib with
  | some lib => (s, .cached lib)
  | none =>
      match s.loadPromise with
      | some pid => (s, .promise pid)
      | none =>
          (⟨none, true, some s.loadsStarted, s.loadsStarted + 1⟩,
           .promise s.loadsStarted)

/-- The `.then` callback of the started import resolving with the loaded
module: caches it and clears the loading flag.  It can only run while a
load is in flight and not yet delivered. -/
def resolveLoad (lib : Nat) (s : LoaderState) : LoaderState :=
  if s.loadPromise.isSome && s.pdfjsLib.isNone then
    { s with pdfjsLib := some lib, isLoading := false }
  else s

/-- Interleaving of loader activity on the single JS thread: `call` is one
`loadPdfJs()` invocation (e.g. from a `convert()` call), `resolve` is
the dynamic import completing. -/
inductive LoaderEvent where
  | call
  | resolve (lib : Nat)
deriving DecidableEq

/-- Run a sequence of loader events, collecting each call's result. -/
def runLoader : List LoaderEvent → LoaderState → LoaderState × List LoadResult
  | [], s => (s, [])
  | .call :: evs, s =>
      ((runLoader evs (loadPdfJsCall s).1).1,
       (loadPdfJsCall s).2 :: (runLoader evs (loadPdfJsCall s).1).2)
  | .resolve lib :: evs, s => runLoader evs (resolveLoad lib s)

/-- Invariant tying the in-flight promise to the ghost load counter. -/
def LoaderInv (s : LoaderState) : Prop :=
  s.loadsStarted ≤ 1 ∧
  (s.loadPromise = none → s.loadsStarted = 0 ∧ s.pdfjsLib = none) ∧
  (∀ p, s.loadPromise = some p → p = 0 ∧ s.loadsStarted = 1)

/-! ## Remote service facade (`app/lib/puter.ts`) -/

/-- The Puter user object, as far as the store keeps it. -/
structure PuterUser where
  username : JStr
deriving DecidableEq

/-- The `auth` slice of the store (data fields only). -/
structure AuthView where
  user : Option PuterUser
  isAuthenticated : Bool
deriving DecidableEq

/-- The global Zustand store state of `usePuterStore`. -/
structure FacadeState where
  isLoading : Bool
  error : Option JStr
  puterReady : Bool
  auth : AuthView
deriving DecidableEq

/-- A `File` handle returned by `puter.fs.write`. -/
structure FileObj where
  name : JStr
deriving DecidableEq

/-- An `FSItem` as returned by `puter.fs.upload` / `readdir`. -/
structure FSItem where
  path : JStr
deriving DecidableEq

/-- A key/value pair returned by `puter.kv.list(pattern, true)`. -/
structure KVItem where
  key : JStr
  value : JStr
deriving DecidableEq

/-- `puter.kv.list` returns plain keys or key/value items depending on
its second argument. -/
inductive KVListResult where
  | keys (ks : List JStr)
  | items (its : List KVItem)
deriving DecidableEq

/-- One element of an array-shaped AI message content. -/
structure ContentPart where
  text : JStr

/-- `message.content` of an AI response: a plain string or an array of
parts (both shapes occur, see `handleAnalyze` step 6). -/
inductive ChatContent where
  | str (s : JStr)
  | parts (l : List ContentPart)

/-- The `message` object of an AI response. -/
structure AIMessage where
  content : ChatContent

/-- The typed AI response the facade returns. -/
structure AIResponse where
  message : AIMessage

/-- Oracle for the external `window.puter` backend: the outcome each
remote call would have if issued.  `Except.error` is a rejected promise. -/
structure Backend where
  fsWriteResult : Except JStr (Option FileObj)
  fsReadResult : Except JStr Blob
  fsUploadResult : Except JStr FSItem
  fsDeleteResult : Except JStr Unit
  fsReaddirResult : Except JStr (Option (List FSItem))
  aiChatResult : Except JStr (Option AIResponse)
  aiImg2txtResult : Except JStr JStr
  kvGetResult : Except JStr (Option JStr)
  kvSetResult : Except JStr Bool
  kvDeleteResult : Except JStr Bool
  kvListResult : Bool → Except JStr KVListResult
  kvFlushResult : Except JStr Bool
  getUserResult : Except JStr PuterUser

/-- The error message every facade operation uses when `getPuter()`
returns `null`. -/
def puterUnavailableMsg : JStr := chars "Puter.js not available"

/-- The store's `setError` helper: record the message, stop loading, and
clear the authentication state. -/
def setError (msg : JStr) (s : FacadeState) : FacadeState :=
  { s with error := some msg, isLoading := false,
           auth := { user := none, isAuthenticated := false } }

/-- The model identifier `ai.feedback` pins its chat call to. -/
def feedbackModel : JStr := chars "claude-3-7-sonnet"

/-!
Each facade operation below is translated from its `puter.ts` helper.
`puter` is the value of `getPuter()` (`none` when `window.puter` is not
available).  An operation returns the new store state, its value
(`Except.error` = the backend promise rejected and the rejection
propagates to the caller, `.ok none` = the operation returned
`undefined`), and the number of backend calls it issued.
-/

/-- `fs.write`. -/
def write (puter : Option Backend) (s : FacadeState) (path : JStr) (data : JStr) :
    FacadeState × Except JStr (Option FileObj) × Nat :=
  match puter with
  | none => (setError puterUnavailableMsg s, .ok none, 0)
  | some b => (s, b.fsWriteResult, 1)

/-- `fs.read` (`readFile` in the source). -/
def readFile (puter : Option Backend) (s : FacadeState) (path : JStr) :
    FacadeState × Except JStr (Option Blob) × Nat :=
  match puter with
  | none => (setError puterUnavailableMsg s, .ok none, 0)
  | some b => (s, b.fsReadResult.map some, 1)

/-- `fs.readDir`. -/
def readDir (puter : Option Backend) (s : FacadeState) (path : JStr) :
    FacadeState × Except JStr (Option (List FSItem)) × Nat :=
  match puter with
  | none => (setError puterUnavailableMsg s, .ok none, 0)
  | some b => (s, b.fsReaddirResult, 1)

/-- `fs.upload`. -/
def upload (puter : Option Backend) (s : FacadeState) (files : List Blob) :
    FacadeState × Except JStr (Option FSItem) × Nat :=
  match puter with
  | none => (setError puterUnavailableMsg s, .ok none, 0)
  | some b => (s, b.fsUploadResult.map some, 1)

/-- `fs.delete` (`deleteFile` in the source). -/
def deleteFile (puter : Option Backend) (s : FacadeState) (path : JStr) :
    FacadeState × Except JStr (Option Unit) × Nat :=
  match puter with
  | none => (setError puterUnavailableMsg s, .ok none, 0)
  | some b => (s, b.fsDeleteResult.map some, 1)

/-- `ai.chat`. -/
def chat (puter : Option Backend) (s : FacadeState) (prompt : JStr) :
    FacadeState × Except JStr (Option AIResponse) × Nat :=
  match puter with
  | none => (setError puterUnavailableMsg s, .ok none, 0)
  | some b => (s, b.aiChatResult, 1)

/-- `ai.feedback`: attaches the stored file plus the instruction text to
one `puter.ai.chat` call pinned to `feedbackModel`. -/
def feedback (puter : Option Backend) (s : FacadeState) (path : JStr) (message : JStr) :
    FacadeState × Except JStr (Option AIResponse) × Nat :=
  match puter with
  | none => (setError puterUnavailableMsg s, .ok none, 0)
  | some b => (s, b.aiChatResult, 1)

/-- `ai.img2txt`. -/
def img2txt (puter : Option Backend) (s : FacadeState) (image : JStr) :
    FacadeState × Except JStr (Option JStr) × Nat :=
  match puter with
  | none => (setError puterUnavailableMsg s, .ok none, 0)
  | some b => (s, b.aiImg2txtResult.map some, 1)

/-- `kv.get` (`getKV` in the source). -/
def getKV (puter : Option Backend) (s : FacadeState) (key : JStr) :
    FacadeState × Except JStr (Option (Option JStr)) × Nat :=
  match puter with
  | none => (setError puterUnavailableMsg s, .ok none, 0)
  | some b => (s, b.kvGetResult.map some, 1)

/-- `kv.set` (`setKV` in the source). -/
def setKV (puter : Option Backend) (s : FacadeState) (key : JStr) (value : JStr) :
    FacadeState × Except JStr (Option Bool) × Nat :=
  match puter with
  | none => (setError puterUnavailableMsg s, .ok none, 0)
  | some b => (s, b.kvSetResult.map some, 1)

/-- `kv.delete` (`deleteKV` in the source). -/
def deleteKV (puter : Option Backend) (s : FacadeState) (key : JStr) :
    FacadeState × Except JStr (Option Bool) × Nat :=
  match puter with
  | none => (setError puterUnavailableMsg s, .ok none, 0)
  | some b => (s, b.kvDeleteResult.map some, 1)

/-- `kv.list` (`listKV` in the source): a missing `returnValues` defaults
to `false` before the backend call. -/
def listKV (puter : Option Backend) (s : FacadeState) (pat : JStr)
    (returnValues : Option Bool) :
    FacadeState × Except JStr (Option KVListResult) × Nat :=
  match puter with
  | none => (setError puterUnavailableMsg s, .ok none, 0)
  | some b => (s, (b.kvListResult (returnValues.getD false)).map some, 1)

/-- `kv.flush` (`flushKV` in the source). -/
def flushKV (puter : Option Backend) (s : FacadeState) :
    FacadeState × Except JStr (Option Bool) × Nat :=
  match puter with
  | none => (setError puterUnavailableMsg s, .ok none, 0)
  | some b => (s, b.kvFlushResult.map some, 1)

/-- `auth.refreshUser`: re-fetch the identity; on success store it and
mark the session authenticated, on failure `setError` with the thrown
message. -/
def refreshUser (puter : Option Backend) (s : FacadeState) : FacadeState :=
  match puter with
  | none => setError puterUnavailableMsg s
  | some b =>
      let s1 := { s with isLoading := true, error := none }
      match b.getUserResult with
      | .ok u => { s1 with auth := ⟨some u, true⟩, isLoading := false }
      | .error e => setError e s1

/-! ## Analysis pipeline (`handleAnalyze` in `app/routes/upload.tsx`) -/

/-- The job context the form hands to `handleAnalyze`. -/
structure AnalyzeInput where
  companyName : JStr
  jobTitle : JStr
  jobDescription : JStr

/-- Oracle for one pipeline run: the results of the facade and converter
calls in program order, the generated identifier, and `JSON.parse` on the
extracted feedback text (`none` = the parse throws). -/
structure AnalyzeEnv where
  uploadFileResult : Except JStr (Option FSItem)
  convertResult : PdfConversionResult
  uploadImageResult : Except JStr (Option FSItem)
  uuid : JStr
  kvSetFirstResult : Except JStr (Option Bool)
  feedbackResult : Except JStr (Option AIResponse)
  jsonParse : JStr → Option Json
  kvSetSecondResult : Except JStr (Option Bool)

/-- Observable side effects of one pipeline run, in order. -/
inductive Effect where
  | setStatus (text : JStr)
  | fsUpload (idx : Nat)
  | convertCall
  | kvSet (key : JStr) (value : Resume)
  | aiFeedback (path : JStr)

/-- How a pipeline run ends: a stage abort with its status message, an
unhandled rejection, or completion with the navigation target. -/
inductive PipeOutcome where
  | halted (status : JStr)
  | crashed
  | completed (nav : JStr)

/-- The key a record is stored under: `` `resume:${uuid}` ``. -/
def recordKey (uuid : JStr) : JStr := chars "resume:" ++ uuid

/-- The record built at step 4, before feedback exists. -/
def initialRecord (env : AnalyzeEnv) (input : AnalyzeInput) (f fi : FSItem) : Resume :=
  ⟨env.uuid, f.path, fi.path, input.companyName, input.jobTitle,
   input.jobDescription, .empty⟩

/-- Step 6's text extraction:
`typeof content === "string" ? content : content[0].text`; indexing an
empty array throws, which `none` records. -/
def extractText : ChatContent → Option JStr
  | .str s => some s
  | .parts [] => none
  | .parts (p :: _) => some p.text

/-- The score values of a feedback payload: the overall score and the
five category scores, where present. -/
def feedbackScores (j : Json) : List Json :=
  (j.getField (chars "overallScore")).toList ++
  ((j.getField (chars "ATS")).bind (fun c => c.getField (chars "score"))).toList ++
  ((j.getField (chars "toneAndStyle")).bind (fun c => c.getField (chars "score"))).toList ++
  ((j.getField (chars "content")).bind (fun c => c.getField (chars "score"))).toList ++
  ((j.getField (chars "structure")).bind (fun c => c.getField (chars "score"))).toList ++
  ((j.getField (chars "skills")).bind (fun c => c.getField (chars "score"))).toList

/-- A single score value lies in `[0, 100]`. -/
def scoreInRangeB : Json → Bool
  | .num n => decide (0 ≤ n ∧ n ≤ 100)
  | _ => false

/-- All scores of a feedback payload lie in `[0, 100]`. -/
def scoresInRangeB (j : Json) : Bool := (feedbackScores j).all scoreInRangeB

/-- All scores stored in a record lie in `[0, 100]` (vacuous before
feedback exists). -/
def recordScoresOkB (r : Resume) : Bool :=
  match r.feedback with
  | .empty => true
  | .payload j => scoresInRangeB j

/-- `handleAnalyze`: the strictly ordered pipeline, returning its outcome
and the trace of its effects. -/
def handleAnalyze (env : AnalyzeEnv) (input : AnalyzeInput) :
    PipeOutcome × List Effect :=
  let t0 : List Effect :=
    [.setStatus (chars "Uploading the file..."), .fsUpload 0]
  match env.uploadFileResult with
  | .error _ => (.crashed, t0)
  | .ok none =>
      (.halted (chars "Error: Failed to upload file"),
       t0 ++ [.setStatus (chars "Error: Failed to upload file")])
  | .ok (some uploadedFile) =>
      let t1 := t0 ++ [.setStatus (chars "Converting to image..."), .convertCall]
      match env.convertResult.file with
      | none =>
          (.halted (chars "Error: Failed to convert PDF to image"),
           t1 ++ [.setStatus (chars "Error: Failed to convert PDF to image")])
      | some _imageFile =>
          let t2 := t1 ++ [.setStatus (chars "Uploading the image..."), .fsUpload 1]
          match env.uploadImageResult with
          | .error _ => (.crashed, t2)
          | .ok none =>
              (.halted (chars "Error: Failed to upload image"),
               t2 ++ [.setStatus (chars "Error: Failed to upload image")])
          | .ok (some uploadedImage) =>
              let data : Resume :=
                ⟨env.uuid, uploadedFile.path, uploadedImage.path,
                 input.companyName, input.jobTitle, input.jobDescription, .empty⟩
              let t3 := t2 ++ [.setStatus (chars "Preparing data..."),
                               .kvSet (recordKey env.uuid) data]
              match env.kvSetFirstResult with
              | .error _ => (.crashed, t3)
              | .ok _ =>
                  let t4 := t3 ++ [.setStatus (chars "Analyzing..."),
                                   .aiFeedback uploadedFile.path]
                  match env.feedbackResult with
                  | .error _ => (.crashed, t4)
                  | .ok none =>
                      (.halted (chars "Error: Failed to analyze resume"),
                       t4 ++ [.setStatus (chars "Error: Failed to analyze resume")])
                  | .ok (some fb) =>
                      match extractText fb.message.content with
                      | none => (.crashed, t4)
                      | some text =>
                          match env.jsonParse text with
                          | none => (.crashed, t4)
                          | some j =>
                              let t5 := t4 ++
                                [.kvSet (recordKey env.uuid)
                                  { data with feedback := .payload j }]
                              match env.kvSetSecondResult with
                              | .error _ => (.crashed, t5)
                              | .ok _ =>
                                  (.completed (chars "/resume/" ++ env.uuid),
                                   t5 ++ [.setStatus
                                     (chars "Analysis complete, redirecting...")])

/-- The key-value writes of an effect trace, in order. -/
def kvWrites (tr : List Effect) : List (JStr × Resume) :=
  tr.filterMap fun e =>
    match e with
    | .kvSet k v => some (k, v)
    | _ => none

/-- Modelled from the spec: the external backend's `kv.list` glob
matching, a trailing-wildcard pattern matching every key with the
pattern's body as prefix (spec section 6; the backend itself is not part
of this repository). -/
def globMatch (pat key : JStr) : Bool :=
  if pat.getLast? = some '*' then pat.dropLast.isPrefixOf key else pat == key

/-! ## Concrete sample values used by witnesses and counterexamples -/

/-- A backend on which every remote call succeeds. -/
def okBackend : Backend :=
  { fsWriteResult := .ok (some ⟨chars "f.txt"⟩),
    fsReadResult := .ok ⟨chars "bytes"⟩,
    fsUploadResult := .ok ⟨chars "/up/f.pdf"⟩,
    fsDeleteResult := .ok (),
    fsReaddirResult := .ok (some []),
    aiChatResult := .ok (some ⟨⟨.str (chars "hi")⟩⟩),
    aiImg2txtResult := .ok (chars "text"),
    kvGetResult := .ok (some (chars "v")),
    kvSetResult := .ok true,
    kvDeleteResult := .ok true,
    kvListResult := fun _ => .ok (.keys []),
    kvFlushResult := .ok true,
    getUserResult := .ok ⟨chars "alice"⟩ }

/-- A backend whose `fs.write` call rejects. -/
def errBackend : Backend :=
  { okBackend with fsWriteResult := .error (chars "network down") }

/-- A backend whose `auth.getUser` call rejects. -/
def errUserBackend : Backend :=
  { okBackend with getUserResult := .error (chars "token expired") }

/-- A store state with an authenticated session and no error. -/
def sAuthEx : FacadeState := ⟨false, none, true, ⟨some ⟨chars "alice"⟩, true⟩⟩

/-- A store state with an anonymous session and no error. -/
def sAnonEx : FacadeState := ⟨false, none, true, ⟨none, false⟩⟩

/-- A feedback payload whose scores are all inside `[0, 100]`. -/
def goodPayload : Json := Json.obj [(chars "overallScore", Json.num 80)]

/-- A feedback payload with an out-of-range overall score. -/
def badPayload : Json := Json.obj [(chars "overallScore", Json.num 150)]

/-- The job context of the end-to-end scenario. -/
def inputEx : AnalyzeInput := ⟨chars "Acme", chars "Engineer", chars "Build things"⟩

/-- A pipeline environment where every call succeeds and the AI returns a
parseable in-range payload. -/
def envOk : AnalyzeEnv :=
  { uploadFileResult := .ok (some ⟨chars "/up/cv.pdf"⟩),
    convertResult := ⟨chars "blob:p1", some ⟨chars "cv.png", ⟨chars "p1"⟩⟩, none⟩,
    uploadImageResult := .ok (some ⟨chars "/up/cv.png"⟩),
    uuid := chars "u1",
    kvSetFirstResult := .ok (some true),
    feedbackResult := .ok (some ⟨⟨.str (chars "payload")⟩⟩),
    jsonParse := fun _ => some goodPayload,
    kvSetSecondResult := .ok (some true) }

/-- Like `envOk`, but the AI payload carries an out-of-range score. -/
def envBad : AnalyzeEnv := { envOk with jsonParse := fun _ => some badPayload }

/-- Like `envOk`, but the first upload returns no handle. -/
def envNoHandle : AnalyzeEnv := { envOk with uploadFileResult := .ok none }

/-- A sample PDF input file. -/
def fPdfEx : InputFile := ⟨chars "cv.pdf"⟩

/-- A conversion environment where rendering and blob encoding succeed. -/
def convEnvEx : ConvertEnv := ⟨.ok (), some ⟨chars "p1"⟩⟩

/-- The preview file `convertPdfToImage` produces for `fPdfEx`. -/
def pngEx : GenFile := ⟨chars "cv.png", ⟨chars "p1"⟩⟩

/-- A stored record before feedback exists. -/
def recEmptyEx : Resume :=
  ⟨chars "u1", chars "/r.pdf", chars "/r.png", chars "Acme", chars "Engineer",
   chars "Build things", .empty⟩

/-- A stored record carrying a populated feedback object. -/
def recObjEx : Resume := { recEmptyEx with feedback := .payload goodPayload }

/-! ## Helper lemmas -/

/-- A list is a Boolean prefix of itself followed by anything. -/
theorem isPrefixOf_append_self (l t : List Char) : l.isPrefixOf (l ++ t) = true := by
  induction l with
  | nil => simp [List.isPrefixOf]
  | cons a as ih => simp [List.isPrefixOf, ih]

/-- The characters of the `.pdf` extension. -/
theorem chars_pdf : chars ".pdf" = ['.', 'p', 'd', 'f'] := rfl

/-- Reversing a name that ends in `.pdf`. -/
theorem reverse_append_pdf (stem : JStr) :
    (stem ++ chars ".pdf").reverse = 'f' :: 'd' :: 'p' :: '.' :: stem.reverse := by
  rw [chars_pdf, List.reverse_append]; rfl

/-- A name ending in lowercase `.pdf` matches the extension test. -/
theorem endsPdfCI_append_pdf (stem : JStr) : endsPdfCI (stem ++ chars ".pdf") = true := by
  unfold endsPdfCI
  rw [reverse_append_pdf]
  rfl

/-- Replacing the trailing `.pdf` of a name with `.png`. -/
theorem outputName_append_pdf (stem : JStr) :
    outputName (stem ++ chars ".pdf") = stem ++ chars ".png" := by
  have h1 : stripPdfExt (stem ++ chars ".pdf") = stem := by
    unfold stripPdfExt
    rw [endsPdfCI_append_pdf, if_pos rfl, reverse_append_pdf]
    rw [show List.drop 4 ('f' :: 'd' :: 'p' :: '.' :: stem.reverse) = stem.reverse from rfl,
        List.reverse_reverse]
  unfold outputName
  rw [h1]

/-- The record key always matches the listing pattern `resume:*`. -/
theorem globMatch_recordKey (uuid : JStr) :
    globMatch (chars "resume:*") (recordKey uuid) = true := by
  have h1 : (chars "resume:*").getLast? = some '*' := rfl
  have h2 : (chars "resume:*").dropLast = chars "resume:" := rfl
  unfold globMatch recordKey
  rw [h1, if_pos rfl, h2]
  exact isPrefixOf_append_self _ _

/-- One `loadPdfJs` call preserves the loader invariant, and any promise
it returns is the single promise `0`. -/
theorem loadPdfJsCall_props (s : LoaderState) (h : LoaderInv s) :
    LoaderInv (loadPdfJsCall s).1 ∧
      ∀ p, (loadPdfJsCall s).2 = .promise p → p = 0 := by
  obtain ⟨lb, ld, lp, ls⟩ := s
  obtain ⟨h1, h2, h3⟩ := h
  cases lb with
  | some lib =>
      have hcall : loadPdfJsCall ⟨some lib, ld, lp, ls⟩ =
          (⟨some lib, ld, lp, ls⟩, .cached lib) := rfl
      rw [hcall]
      exact ⟨⟨h1, h2, h3⟩, fun p hp => nomatch hp⟩
  | none =>
      cases lp with
      | some pid =>
          have hcall : loadPdfJsCall ⟨none, ld, some pid, ls⟩ =
              (⟨none, ld, some pid, ls⟩, .promise pid) := rfl
          rw [hcall]
          refine ⟨⟨h1, h2, h3⟩, ?_⟩
          intro p hp
          rw [← LoadResult.promise.inj hp]
          exact (h3 pid rfl).1
      | none =>
          have h0 : ls = 0 := (h2 rfl).1
          subst h0
          have hcall : loadPdfJsCall ⟨none, ld, none, 0⟩ =
              (⟨none, true, some 0, 1⟩, .promise 0) := rfl
          rw [hcall]
          refine ⟨⟨by decide, fun hx => ?_, fun p hp => ?_⟩, fun p hp => ?_⟩
          · simp at hx
          · exact ⟨(Option.some.inj hp).symm, rfl⟩
          · exact (LoadResult.promise.inj hp).symm

/-- The import resolving preserves the loader invariant. -/
theorem resolveLoad_inv (lib : Nat) (s : LoaderState) (h : LoaderInv s) :
    LoaderInv (resolveLoad lib s) := by
  obtain ⟨lb, ld, lp, ls⟩ := s
  obtain ⟨h1, h2, h3⟩ := h
  cases lb with
  | some l =>
      cases lp with
      | none => exact ⟨h1, h2, h3⟩
      | some pid => exact ⟨h1, h2, h3⟩
  | none =>
      cases lp with
      | none => exact ⟨h1, h2, h3⟩
      | some pid =>
          have hres : resolveLoad lib ⟨none, ld, some pid, ls⟩ =
              ⟨some lib, false, some pid, ls⟩ := rfl
          rw [hres]
          refine ⟨h1, fun hx => ?_, fun p hp => ?_⟩
          · simp at hx
          · exact h3 p hp

/-- Running any loader schedule preserves the invariant and every promise
handed out is the single promise `0`. -/
theorem runLoader_props (evs : List LoaderEvent) (s : LoaderState) (h : LoaderInv s) :
    LoaderInv (runLoader evs s).1 ∧
      ∀ p, LoadResult.promise p ∈ (runLoader evs s).2 → p = 0 := by
  induction evs generalizing s with
  | nil => exact ⟨h, by simp [runLoader]⟩
  | cons ev evs ih =>
      cases ev with
      | call =>
          obtain ⟨hinv, hpid⟩ := loadPdfJsCall_props s h
          obtain ⟨ih1, ih2⟩ := ih (loadPdfJsCall s).1 hinv
          refine ⟨by simpa [runLoader] using ih1, ?_⟩
          intro p hp
          simp only [runLoader, List.mem_cons] at hp
          rcases hp with hp | hp
          · exact hpid p hp.symm
          · exact ih2 p hp
      | resolve lib =>
          have hinv := resolveLoad_inv lib s h
          obtain ⟨ih1, ih2⟩ := ih (resolveLoad lib s) hinv
          refine ⟨by simpa [runLoader] using ih1, ?_⟩
          intro p hp
          exact ih2 p (by simpa [runLoader] using hp)

/-- Trace of a fully successful pipeline run. -/
theorem handleAnalyze_success (env : AnalyzeEnv) (input : AnalyzeInput)
    (f fi : FSItem) (img : GenFile) (resp : AIResponse) (text : JStr) (j : Json)
    (b1 b2 : Option Bool)
    (h1 : env.uploadFileResult = .ok (some f))
    (h2 : env.convertResult.file = some img)
    (h3 : env.uploadImageResult = .ok (some fi))
    (h4 : env.kvSetFirstResult = .ok b1)
    (h5 : env.feedbackResult = .ok (some resp))
    (h6 : extractText resp.message.content = some text)
    (h7 : env.jsonParse text = some j)
    (h8 : env.kvSetSecondResult = .ok b2) :
    handleAnalyze env input =
      (.completed (chars "/resume/" ++ env.uuid),
       [.setStatus (chars "Uploading the file..."), .fsUpload 0,
        .setStatus (chars "Converting to image..."), .convertCall,
        .setStatus (chars "Uploading the image..."), .fsUpload 1,
        .setStatus (chars "Preparing data..."),
        .kvSet (recordKey env.uuid) (initialRecord env input f fi),
        .setStatus (chars "Analyzing..."), .aiFeedback f.path,
        .kvSet (recordKey env.uuid)
          { initialRecord env input f fi with feedback := .payload j },
        .setStatus (chars "Analysis complete, redirecting...")]) := by
  simp [handleAnalyze, initialRecord, h1, h2, h3, h4, h5, h6, h7, h8]

/-! ## Claims -/

/-- Claim C1: on every successful pipeline run (every facade call
succeeds), exactly two key-value writes are issued, both to the key
`resume:<uuid>` derived from the freshly generated identifier: first the
record with empty feedback, then the same record with the parsed feedback
payload, in that order; and the key matches the listing pattern
`resume:*`, so the first write already makes the record discoverable. -/
theorem pipeline_two_writes (env : AnalyzeEnv) (input : AnalyzeInput)
    (f fi : FSItem) (img : GenFile) (resp : AIResponse) (text : JStr) (j : Json)
    (b1 b2 : Option Bool)
    (h1 : env.uploadFileResult = .ok (some f))
    (h2 : env.convertResult.file = some img)
    (h3 : env.uploadImageResult = .ok (some fi))
    (h4 : env.kvSetFirstResult = .ok b1)
    (h5 : env.feedbackResult = .ok (some resp))
    (h6 : extractText resp.message.content = some text)
    (h7 : env.jsonParse text = some j)
    (h8 : env.kvSetSecondResult = .ok b2) :
    kvWrites (handleAnalyze env input).2 =
      [(recordKey env.uuid, initialRecord env input f fi),
       (recordKey env.uuid,
        { initialRecord env input f fi with feedback := .payload j })] ∧
    (initialRecord env input f fi).feedback = .empty ∧
    globMatch (chars "resume:*") (recordKey env.uuid) = true := by
  rw [handleAnalyze_success env input f fi img resp text j b1 b2 h1 h2 h3 h4 h5 h6 h7 h8]
  exact ⟨by simp [kvWrites], rfl, globMatch_recordKey env.uuid⟩

/-- Witness for C1: the concrete run of end-to-end scenario 2. -/
theorem pipeline_two_writes_witness :
    envOk.uploadFileResult = .ok (some ⟨chars "/up/cv.pdf"⟩) ∧
    kvWrites (handleAnalyze envOk inputEx).2 =
      [(recordKey (chars "u1"),
        initialRecord envOk inputEx ⟨chars "/up/cv.pdf"⟩ ⟨chars "/up/cv.png"⟩),
       (recordKey (chars "u1"),
        { initialRecord envOk inputEx ⟨chars "/up/cv.pdf"⟩ ⟨chars "/up/cv.png"⟩ with
          feedback := .payload goodPayload })] ∧
    globMatch (chars "resume:*") (recordKey (chars "u1")) = true := by
  have h := pipeline_two_writes envOk inputEx ⟨chars "/up/cv.pdf"⟩ ⟨chars "/up/cv.png"⟩
    ⟨chars "cv.png", ⟨chars "p1"⟩⟩ ⟨⟨.str (chars "payload")⟩⟩ (chars "payload")
    goodPayload (some true) (some true) rfl rfl rfl rfl rfl rfl rfl rfl
  exact ⟨rfl, h.1, h.2.2⟩

/-- Counterexample to Claim C3 as stated: the parse step applies no range
validation; an AI payload with `overallScore` 150 is parsed and stored
verbatim, and the stored record's scores are not within `[0, 100]`. -/
theorem pipeline_stores_out_of_range_score :
    (kvWrites (handleAnalyze envBad inputEx).2).length = 2 ∧
    ((kvWrites (handleAnalyze envBad inputEx).2).getLast?).map
        (fun kv => recordScoresOkB kv.2) = some false ∧
    scoresInRangeB badPayload = false :=
  ⟨rfl, rfl, rfl⟩

/-- Claim C3 (amended): the pipeline stores the parsed feedback payload
verbatim — the last key-value write of a completed run carries exactly
the JSON value `JSON.parse` returned — so the stored scores lie in
`[0, 100]` precisely when the AI payload's scores already do. -/
theorem parse_step_stores_verbatim (env : AnalyzeEnv) (input : AnalyzeInput)
    (f fi : FSItem) (img : GenFile) (resp : AIResponse) (text : JStr) (j : Json)
    (b1 b2 : Option Bool)
    (h1 : env.uploadFileResult = .ok (some f))
    (h2 : env.convertResult.file = some img)
    (h3 : env.uploadImageResult = .ok (some fi))
    (h4 : env.kvSetFirstResult = .ok b1)
    (h5 : env.feedbackResult = .ok (some resp))
    (h6 : extractText resp.message.content = some text)
    (h7 : env.jsonParse text = some j)
    (h8 : env.kvSetSecondResult = .ok b2) :
    (kvWrites (handleAnalyze env input).2).getLast? =
      some (recordKey env.uuid,
        { initialRecord env input f fi with feedback := .payload j }) ∧
    env.jsonParse text = some j ∧
    (scoresInRangeB j = true →
      recordScoresOkB
        { initialRecord env input f fi with feedback := .payload j } = true) := by
  refine ⟨?_, h7, ?_⟩
  · rw [handleAnalyze_success env input f fi img resp text j b1 b2 h1 h2 h3 h4 h5 h6 h7 h8]
    simp [kvWrites]
  · intro hs
    simpa [recordScoresOkB, initialRecord] using hs

/-- Witness for the amended C3: a run whose payload scores are in range. -/
theorem parse_step_stores_verbatim_witness :
    scoresInRangeB goodPayload = true ∧
    (kvWrites (handleAnalyze envOk inputEx).2).getLast? =
      some (recordKey (chars "u1"),
        { initialRecord envOk inputEx ⟨chars "/up/cv.pdf"⟩ ⟨chars "/up/cv.png"⟩ with
          feedback := .payload goodPayload }) := by
  have h := parse_step_stores_verbatim envOk inputEx ⟨chars "/up/cv.pdf"⟩
    ⟨chars "/up/cv.png"⟩ ⟨chars "cv.png", ⟨chars "p1"⟩⟩ ⟨⟨.str (chars "payload")⟩⟩
    (chars "payload") goodPayload (some true) (some true) rfl rfl rfl rfl rfl rfl rfl rfl
  exact ⟨rfl, h.1⟩

/-- Claim C7: if the first upload returns no handle, the pipeline halts
with the upload-specific error status; its whole trace is the first
status, the upload call and the error status — the converter is never
invoked, no key-value write happens and no AI call is made. -/
theorem pipeline_halts_on_upload_failure (env : AnalyzeEnv) (input : AnalyzeInput)
    (h : env.uploadFileResult = .ok none) :
    handleAnalyze env input =
      (.halted (chars "Error: Failed to upload file"),
       [.setStatus (chars "Uploading the file..."), .fsUpload 0,
        .setStatus (chars "Error: Failed to upload file")]) ∧
    Effect.convertCall ∉ (handleAnalyze env input).2 ∧
    kvWrites (handleAnalyze env input).2 = [] ∧
    ∀ p, Effect.aiFeedback p ∉ (handleAnalyze env input).2 := by
  refine ⟨by simp [handleAnalyze, h], ?_, ?_, ?_⟩
  · simp [handleAnalyze, h]
  · simp [handleAnalyze, h, kvWrites]
  · intro p
    simp [handleAnalyze, h]

/-- Witness for C7: the concrete no-handle environment. -/
theorem pipeline_halts_on_upload_failure_witness :
    envNoHandle.uploadFileResult = .ok none ∧
    handleAnalyze envNoHandle inputEx =
      (.halted (chars "Error: Failed to upload file"),
       [.setStatus (chars "Uploading the file..."), .fsUpload 0,
        .setStatus (chars "Error: Failed to upload file")]) :=
  ⟨rfl, (pipeline_halts_on_upload_failure envNoHandle inputEx rfl).1⟩

/-- Claim C6: the rendering-engine loader starts the underlying module
load at most once across any interleaving of `loadPdfJs` calls and load
completion, and all calls that receive a promise receive the same single
in-flight promise. -/
theorem loader_loads_at_most_once (evs : List LoaderEvent) :
    (runLoader evs initLoader).1.loadsStarted ≤ 1 ∧
      ∀ p q, LoadResult.promise p ∈ (runLoader evs initLoader).2 →
        LoadResult.promise q ∈ (runLoader evs initLoader).2 → p = q := by
  have h0 : LoaderInv initLoader := by
    refine ⟨by decide, fun _ => ⟨rfl, rfl⟩, fun p hp => ?_⟩
    simp [initLoader] at hp
  obtain ⟨h1, h2⟩ := runLoader_props evs initLoader h0
  exact ⟨h1.1, fun p q hp hq => (h2 p hp).trans (h2 q hq).symm⟩

/-- Witness for C6: two calls before the load resolves share promise 0. -/
theorem loader_loads_at_most_once_witness :
    LoadResult.promise 0 ∈ (runLoader [.call, .call] initLoader).2 ∧
    (runLoader [.call, .call] initLoader).1.loadsStarted ≤ 1 := by
  refine ⟨by decide, ?_⟩
  have h := loader_loads_at_most_once [.call, .call]
  have hpq : (0 : Nat) = 0 := h.2 0 0 (by decide) (by decide)
  exact h.1

/-- Counterexample to Claim C2 as stated: a rejected `fs.write` backend
call leaves the facade state untouched — the error string is not set and
the authenticated session is not cleared — while the rejection propagates
to the caller. -/
theorem write_backend_error_leaves_state :
    (write (some errBackend) sAuthEx (chars "/a.txt") (chars "d")).1 = sAuthEx ∧
    sAuthEx.error = none ∧
    sAuthEx.auth.isAuthenticated = true ∧
    (write (some errBackend) sAuthEx (chars "/a.txt") (chars "d")).2.1 =
      .error (chars "network down") :=
  ⟨rfl, rfl, rfl, rfl⟩

/-- Claim C2 (amended): the fs/ai/kv facade operations do not catch
backend errors — a thrown/rejected backend call propagates to the caller
with the store state unchanged (no error string set, auth untouched) and
the operation issues exactly one backend call (no retry). -/
theorem facade_ops_propagate_errors :
    (∀ (s : FacadeState) (b : Backend) (p d e : JStr),
      b.fsWriteResult = .error e → write (some b) s p d = (s, .error e, 1)) ∧
    (∀ (s : FacadeState) (b : Backend) (p e : JStr),
      b.fsReadResult = .error e → readFile (some b) s p = (s, .error e, 1)) ∧
    (∀ (s : FacadeState) (b : Backend) (fl : List Blob) (e : JStr),
      b.fsUploadResult = .error e → upload (some b) s fl = (s, .error e, 1)) ∧
    (∀ (s : FacadeState) (b : Backend) (p e : JStr),
      b.fsDeleteResult = .error e → deleteFile (some b) s p = (s, .error e, 1)) ∧
    (∀ (s : FacadeState) (b : Backend) (p e : JStr),
      b.fsReaddirResult = .error e → readDir (some b) s p = (s, .error e, 1)) ∧
    (∀ (s : FacadeState) (b : Backend) (pr e : JStr),
      b.aiChatResult = .error e → chat (some b) s pr = (s, .error e, 1)) ∧
    (∀ (s : FacadeState) (b : Backend) (p m e : JStr),
      b.aiChatResult = .error e → feedback (some b) s p m = (s, .error e, 1)) ∧
    (∀ (s : FacadeState) (b : Backend) (im e : JStr),
      b.aiImg2txtResult = .error e → img2txt (some b) s im = (s, .error e, 1)) ∧
    (∀ (s : FacadeState) (b : Backend) (k e : JStr),
      b.kvGetResult = .error e → getKV (some b) s k = (s, .error e, 1)) ∧
    (∀ (s : FacadeState) (b : Backend) (k v e : JStr),
      b.kvSetResult = .error e → setKV (some b) s k v = (s, .error e, 1)) ∧
    (∀ (s : FacadeState) (b : Backend) (k e : JStr),
      b.kvDeleteResult = .error e → deleteKV (some b) s k = (s, .error e, 1)) ∧
    (∀ (s : FacadeState) (b : Backend) (pt e : JStr) (rv : Option Bool),
      b.kvListResult (rv.getD false) = .error e →
        listKV (some b) s pt rv = (s, .error e, 1)) ∧
    (∀ (s : FacadeState) (b : Backend) (e : JStr),
      b.kvFlushResult = .error e → flushKV (some b) s = (s, .error e, 1)) := by
  refine ⟨?_, ?_, ?_, ?_, ?_, ?_, ?_, ?_, ?_, ?_, ?_, ?_, ?_⟩
  · intro s b p d e h; simp [write, h]
  · intro s b p e h; simp [readFile, h, Except.map]
  · intro s b fl e h; simp [upload, h, Except.map]
  · intro s b p e h; simp [deleteFile, h, Except.map]
  · intro s b p e h; simp [readDir, h]
  · intro s b pr e h; simp [chat, h]
  · intro s b p m e h; simp [feedback, h]
  · intro s b im e h; simp [img2txt, h, Except.map]
  · intro s b k e h; simp [getKV, h, Except.map]
  · intro s b k v e h; simp [setKV, h, Except.map]
  · intro s b k e h; simp [deleteKV, h, Except.map]
  · intro s b pt e rv h; simp [listKV, h, Except.map]
  · intro s b e h; simp [flushKV, h, Except.map]

/-- Witness for the amended C2: the concrete rejected `fs.write`. -/
theorem facade_ops_propagate_errors_witness :
    errBackend.fsWriteResult = .error (chars "network down") ∧
    write (some errBackend) sAuthEx (chars "/a.txt") (chars "d") =
      (sAuthEx, .error (chars "network down"), 1) :=
  ⟨rfl, facade_ops_propagate_errors.1 sAuthEx errBackend (chars "/a.txt")
    (chars "d") (chars "network down") rfl⟩

/-- Claim C4: when the backend runtime is not available, every facade
operation fails immediately — it sets the service-unavailable error
(clearing auth as `setError` does), returns `undefined`, and performs
zero backend calls. -/
theorem facade_ops_unready :
    (∀ (s : FacadeState) (p d : JStr),
      write none s p d = (setError puterUnavailableMsg s, .ok none, 0)) ∧
    (∀ (s : FacadeState) (p : JStr),
      readFile none s p = (setError puterUnavailableMsg s, .ok none, 0)) ∧
    (∀ (s : FacadeState) (fl : List Blob),
      upload none s fl = (setError puterUnavailableMsg s, .ok none, 0)) ∧
    (∀ (s : FacadeState) (p : JStr),
      deleteFile none s p = (setError puterUnavailableMsg s, .ok none, 0)) ∧
    (∀ (s : FacadeState) (p : JStr),
      readDir none s p = (setError puterUnavailableMsg s, .ok none, 0)) ∧
    (∀ (s : FacadeState) (pr : JStr),
      chat none s pr = (setError puterUnavailableMsg s, .ok none, 0)) ∧
    (∀ (s : FacadeState) (p m : JStr),
      feedback none s p m = (setError puterUnavailableMsg s, .ok none, 0)) ∧
    (∀ (s : FacadeState) (im : JStr),
      img2txt none s im = (setError puterUnavailableMsg s, .ok none, 0)) ∧
    (∀ (s : FacadeState) (k : JStr),
      getKV none s k = (setError puterUnavailableMsg s, .ok none, 0)) ∧
    (∀ (s : FacadeState) (k v : JStr),
      setKV none s k v = (setError puterUnavailableMsg s, .ok none, 0)) ∧
    (∀ (s : FacadeState) (k : JStr),
      deleteKV none s k = (setError puterUnavailableMsg s, .ok none, 0)) ∧
    (∀ (s : FacadeState) (pt : JStr) (rv : Option Bool),
      listKV none s pt rv = (setError puterUnavailableMsg s, .ok none, 0)) ∧
    (∀ (s : FacadeState),
      flushKV none s = (setError puterUnavailableMsg s, .ok none, 0)) :=
  ⟨fun _ _ _ => rfl, fun _ _ => rfl, fun _ _ => rfl, fun _ _ => rfl,
   fun _ _ => rfl, fun _ _ => rfl, fun _ _ _ => rfl, fun _ _ => rfl,
   fun _ _ => rfl, fun _ _ _ => rfl, fun _ _ => rfl, fun _ _ _ => rfl,
   fun _ => rfl⟩

/-- Counterexample to Claim C5 as stated: a successful `refreshUser` on
an anonymous session flips the authenticated flag's truthiness from
`false` to `true`. -/
theorem refreshUser_flips_anonymous :
    sAnonEx.auth.isAuthenticated = false ∧
    okBackend.getUserResult = .ok ⟨chars "alice"⟩ ∧
    (refreshUser (some okBackend) sAnonEx).auth.isAuthenticated = true :=
  ⟨rfl, rfl, rfl⟩

/-- Claim C5 (amended): on success `refreshUser` stores the fetched
identity and unconditionally sets `isAuthenticated` to `true`, whatever
it was before; only on failure does it degrade to anonymous (user null,
flag false) with the error string set to the thrown message. -/
theorem refreshUser_success_and_failure :
    (∀ (s : FacadeState) (b : Backend) (u : PuterUser), b.getUserResult = .ok u →
      refreshUser (some b) s =
        { s with isLoading := false, error := none, auth := ⟨some u, true⟩ }) ∧
    (∀ (s : FacadeState) (b : Backend) (e : JStr), b.getUserResult = .error e →
      refreshUser (some b) s =
        { s with isLoading := false, error := some e, auth := ⟨none, false⟩ }) := by
  constructor
  · intro s b u h
    obtain ⟨il, er, pr, au⟩ := s
    simp [refreshUser, h]
  · intro s b e h
    obtain ⟨il, er, pr, au⟩ := s
    simp [refreshUser, setError, h]

/-- Witness for the amended C5: one successful and one failed refresh. -/
theorem refreshUser_success_and_failure_witness :
    okBackend.getUserResult = .ok ⟨chars "alice"⟩ ∧
    refreshUser (some okBackend) sAnonEx =
      { sAnonEx with isLoading := false, error := none,
                     auth := ⟨some ⟨chars "alice"⟩, true⟩ } ∧
    errUserBackend.getUserResult = .error (chars "token expired") ∧
    refreshUser (some errUserBackend) sAuthEx =
      { sAuthEx with isLoading := false, error := some (chars "token expired"),
                     auth := ⟨none, false⟩ } := by
  refine ⟨rfl, ?_, rfl, ?_⟩
  · exact refreshUser_success_and_failure.1 sAnonEx okBackend ⟨chars "alice"⟩ rfl
  · exact refreshUser_success_and_failure.2 sAuthEx errUserBackend
      (chars "token expired") rfl

/-- Claim C8: for an input named `<stem>.pdf`, a successful conversion
returns a preview file named `<stem>.png` and a non-empty image URL. -/
theorem convert_pdf_output_name (env : ConvertEnv) (f : InputFile) (stem : JStr)
    (pf : GenFile) (hname : f.name = stem ++ chars ".pdf")
    (hfile : (convertPdfToImage f env).file = some pf) :
    pf.name = stem ++ chars ".png" ∧ (convertPdfToImage f env).imageUrl ≠ [] := by
  obtain ⟨rr, tb⟩ := env
  cases rr with
  | error e => simp [convertPdfToImage] at hfile
  | ok u =>
      cases tb with
      | none => simp [convertPdfToImage] at hfile
      | some blob =>
          have hres : convertPdfToImage f ⟨.ok u, some blob⟩ =
              { imageUrl := createObjectURL blob,
                file := some ⟨outputName f.name, blob⟩, error := none } := rfl
          rw [hres] at hfile ⊢
          constructor
          · obtain rfl : GenFile.mk (outputName f.name) blob = pf :=
              Option.some.inj hfile
            show outputName f.name = stem ++ chars ".png"
            rw [hname]
            exact outputName_append_pdf stem
          · show createObjectURL blob ≠ []
            have hurl : createObjectURL blob = 'b' :: (chars "lob:" ++ blob.bid) := rfl
            rw [hurl]
            exact List.cons_ne_nil _ _

/-- Witness for C8: converting the concrete file `cv.pdf`. -/
theorem convert_pdf_output_name_witness :
    fPdfEx.name = chars "cv" ++ chars ".pdf" ∧
    (convertPdfToImage fPdfEx convEnvEx).file = some pngEx ∧
    pngEx.name = chars "cv" ++ chars ".png" ∧
    (convertPdfToImage fPdfEx convEnvEx).imageUrl ≠ [] := by
  have h := convert_pdf_output_name convEnvEx fPdfEx (chars "cv") pngEx rfl rfl
  exact ⟨rfl, rfl, h.1, h.2⟩

/-- Claim C9: serializing a record to its JSON storage form and parsing
it back yields the same record field for field, both with empty feedback
and with a populated feedback object. -/
theorem record_roundtrip (r : Resume)
    (h : r.feedback = .empty ∨ ∃ flds, r.feedback = .payload (.obj flds)) :
    parseRecord (serializeRecord r) = some r := by
  obtain ⟨id, rp, ip, cn, jt, jd, fb⟩ := r
  cases fb with
  | empty => rfl
  | payload j =>
      rcases h with h | ⟨flds, h⟩
      · simp at h
      · have hj : j = .obj flds := by
          injection h
        subst hj
        rfl

/-- Witness for C9: the two concrete records round-trip. -/
theorem record_roundtrip_witness :
    recEmptyEx.feedback = .empty ∧
    parseRecord (serializeRecord recEmptyEx) = some recEmptyEx ∧
    parseRecord (serializeRecord recObjEx) = some recObjEx :=
  ⟨rfl, record_roundtrip recEmptyEx (Or.inl rfl),
   record_roundtrip recObjEx
     (Or.inr ⟨[(chars "overallScore", Json.num 80)], rfl⟩)⟩

/-- Claim C10: a name without a trailing (case-insensitive) `.pdf` gets
`.png` appended with nothing stripped; and only a single trailing `.pdf`
is ever removed — `<stem>.pdf.pdf` becomes `<stem>.pdf.png`. -/
theorem output_name_non_pdf :
    (∀ name : JStr, endsPdfCI name = false →
      outputName name = name ++ chars ".png") ∧
    (∀ stem : JStr,
      outputName (stem ++ chars ".pdf.pdf") = stem ++ chars ".pdf.png") := by
  constructor
  · intro name h
    simp [outputName, stripPdfExt, h]
  · intro stem
    have h2 : chars ".pdf.pdf" = chars ".pdf" ++ chars ".pdf" := rfl
    have h3 : stem ++ chars ".pdf.pdf" = (stem ++ chars ".pdf") ++ chars ".pdf" := by
      rw [h2, List.append_assoc]
    rw [h3, outputName_append_pdf, List.append_assoc]
    rfl

/-- Witness for C10: a name with no `.pdf` extension. -/
theorem output_name_non_pdf_witness :
    endsPdfCI (chars "resume.txt") = false ∧
    outputName (chars "resume.txt") = chars "resume.txt" ++ chars ".png" :=
  ⟨rfl, output_name_non_pdf.1 (chars "resume.txt") rfl⟩
